import Mathlib

/-!
Verification of the loutube streaming utility (src/loutube.py): a shallow
embedding of the progress-line parser, the single-line progress renderer,
the output-scanning loop, the browser-cookie command builder, and the
yt-dlp/VLC streaming pipeline controller, together with theorems settling
the specification claims about them.

Modelling conventions:
* Python strings are Lean `String`s; character-level work is on `List Char`.
* Python regular-expression searches are embedded as explicit matchers.
  The two progress patterns use only literals, `\s+`, `\s*`, `[^\s]+` and
  `[0-9.]+`; for these, greedy matching never needs backtracking (a run of
  `[^\s]+` can only be followed by `\s+` when the run is maximal, and a run
  of `[0-9.]+` can only be followed by `%` when the run is maximal), so a
  maximal-munch matcher tried at every start position, left to right, is
  exactly `re.search`.
* Python `float(s)` on a nonempty string over `[0-9.]` succeeds iff the
  string has at least one digit and at most one dot, and otherwise raises
  `ValueError`; fallible computations return `Except String _` with
  `.error "ValueError"` for the raise.  Numeric values are ideal decimals
  (`ℚ`); binary-double rounding is not modelled, and no claim depends on it.
* Only ASCII whitespace/letter handling is modelled (`\s`, `.lower()`,
  `.strip()`); every input in the claims is ASCII.
-/

/-- The ASCII characters matched by Python's regex `\s` and stripped by
`str.strip()`. -/
def pyIsSpace (c : Char) : Bool :=
  c = ' ' || c = '\t' || c = '\n' || c = '\r' || c = '\x0b' || c = '\x0c'

/-- The character class `[0-9.]` of the percent group. -/
def isDigitOrDot (c : Char) : Bool :=
  c.isDigit || c = '.'

/-- Match a literal character sequence, returning the rest of the input. -/
def litTok : List Char → List Char → Option (List Char)
  | [], cs => some cs
  | _ :: _, [] => none
  | l :: ls, c :: cs => if c = l then litTok ls cs else none

/-- Split off the maximal (possibly empty) run of characters satisfying `p`. -/
def munchRun (p : Char → Bool) : List Char → List Char × List Char
  | [] => ([], [])
  | c :: cs =>
    if p c then
      let r := munchRun p cs
      (c :: r.1, r.2)
    else ([], c :: cs)

/-- Match `p+` greedily: the maximal nonempty run satisfying `p`. -/
def munchOne (p : Char → Bool) (cs : List Char) : Option (List Char × List Char) :=
  match munchRun p cs with
  | ([], _) => none
  | (a, b) => some (a, b)

/-- Match `\s*` greedily, returning the rest. -/
def munchSpaces (cs : List Char) : List Char :=
  (munchRun pyIsSpace cs).2

/-- Try a matcher at every start position, left to right: `re.search`. -/
def searchFrom (m : List Char → Option α) : List Char → Option α
  | [] => m []
  | c :: cs =>
    match m (c :: cs) with
    | some r => some r
    | none => searchFrom m cs

/-- The class `[^\s]` of the downloaded/total/speed/eta groups. -/
def nonSpace (c : Char) : Bool :=
  !pyIsSpace c

/-- One token of the regex subset used by the progress patterns. -/
inductive Tok where
  | lit (s : String)
  | ws1
  | ws0
  | group (cls : Char → Bool)

/-- Match a token sequence at the current position, greedily, returning the
captured groups in order.  For the progress patterns greedy matching never
needs backtracking, so this is exactly the regex's anchored match. -/
def runToks : List Tok → List Char → Option (List (List Char))
  | [], _ => some []
  | .lit s :: ts, cs =>
    match litTok s.data cs with
    | some cs => runToks ts cs
    | none => none
  | .ws1 :: ts, cs =>
    match munchOne pyIsSpace cs with
    | some (_, cs) => runToks ts cs
    | none => none
  | .ws0 :: ts, cs => runToks ts (munchSpaces cs)
  | .group cls :: ts, cs =>
    match munchOne cls cs with
    | some (g, cs) => (runToks ts cs).map (g :: ·)
    | none => none

/-- The primary progress pattern of `parse_progress_line`
(`src/loutube.py:55`):
`Downloaded\s+([^\s]+)\s+of\s+([^\s]+)\s+\(([0-9.]+)%\)\s+at\s+([^\s]+)\s+ETA\s+([^\s]+)`. -/
def primaryPat : List Tok :=
  [.lit "Downloaded", .ws1, .group nonSpace, .ws1, .lit "of", .ws1, .group nonSpace,
   .ws1, .lit "(", .group isDigitOrDot, .lit "%)", .ws1, .lit "at", .ws1,
   .group nonSpace, .ws1, .lit "ETA", .ws1, .group nonSpace]

/-- The secondary (looser) progress pattern (`src/loutube.py:71`):
`Downloaded\s+([^\s]+)\s+of\s+([^\s]+)\s+\(\s*([0-9.]+)%\s*\)`. -/
def secondaryPat : List Tok :=
  [.lit "Downloaded", .ws1, .group nonSpace, .ws1, .lit "of", .ws1, .group nonSpace,
   .ws1, .lit "(", .ws0, .group isDigitOrDot, .lit "%", .ws0, .lit ")"]

/-- The speed sub-pattern `at\s+([^\s]+)` (`src/loutube.py:77`). -/
def atPat : List Tok :=
  [.lit "at", .ws1, .group nonSpace]

/-- The eta sub-pattern `ETA\s+([^\s]+)` (`src/loutube.py:78`). -/
def etaPat : List Tok :=
  [.lit "ETA", .ws1, .group nonSpace]

/-- Anchored match of the primary pattern, with its five groups. -/
def primaryAt (cs : List Char) : Option (List Char × List Char × List Char × List Char × List Char) :=
  match runToks primaryPat cs with
  | some [g1, g2, g3, g4, g5] => some (g1, g2, g3, g4, g5)
  | _ => none

/-- Anchored match of the secondary pattern, with its three groups. -/
def secondaryAt (cs : List Char) : Option (List Char × List Char × List Char) :=
  match runToks secondaryPat cs with
  | some [g1, g2, g3] => some (g1, g2, g3)
  | _ => none

/-- Anchored match of the speed sub-pattern, with its group. -/
def atTokenAt (cs : List Char) : Option (List Char) :=
  match runToks atPat cs with
  | some [w] => some w
  | _ => none

/-- Anchored match of the eta sub-pattern, with its group. -/
def etaTokenAt (cs : List Char) : Option (List Char) :=
  match runToks etaPat cs with
  | some [w] => some w
  | _ => none

/-- Python `float` accepts a nonempty `[0-9.]` string iff it has at least one
digit and at most one dot (otherwise `ValueError`). -/
def floatAcceptable (ds : List Char) : Bool :=
  ds.any Char.isDigit && ds.count '.' ≤ 1

/-- Value of a digit run, `0` on the empty run. -/
def digitsVal (ds : List Char) : Nat :=
  ds.foldl (fun n c => 10 * n + (c.toNat - '0'.toNat)) 0

/-- Ideal decimal value of an accepted `[0-9.]` float literal: the digits with
the dot removed, divided by ten to the number of fractional digits.  Built
with `mkRat` so that it evaluates by kernel reduction. -/
def floatVal (ds : List Char) : ℚ :=
  let intPart := ds.takeWhile (fun c => c ≠ '.')
  let fracPart := (ds.dropWhile (fun c => c ≠ '.')).drop 1
  mkRat (digitsVal (intPart ++ fracPart)) (10 ^ fracPart.length)

/-- The dictionary returned by `parse_progress_line` on a match. -/
structure ProgressSample where
  percentage : Rat
  downloaded : String
  total : String
  speed : String
  eta : String
deriving Repr, DecidableEq

/-- `parse_progress_line` (`src/loutube.py:52`): try the primary pattern; on
its failure try the secondary pattern, defaulting speed/eta to `"Unknown"`
when their sub-patterns find nothing; return `none` when neither matches.
`float(...)` on the percent group may raise `ValueError`, modelled as
`.error "ValueError"`. -/
def parse_progress_line (line : String) : Except String (Option ProgressSample) :=
  match searchFrom primaryAt line.data with
  | some (g1, g2, g3, g4, g5) =>
    if floatAcceptable g3 then
      .ok (some ⟨floatVal g3, String.mk g1, String.mk g2, String.mk g4, String.mk g5⟩)
    else .error "ValueError"
  | none =>
    match searchFrom secondaryAt line.data with
    | some (g1, g2, g3) =>
      if floatAcceptable g3 then
        let speed : String :=
          match searchFrom atTokenAt line.data with
          | some w => String.mk w
          | none => "Unknown"
        let eta : String :=
          match searchFrom etaTokenAt line.data with
          | some w => String.mk w
          | none => "Unknown"
        .ok (some ⟨floatVal g3, String.mk g1, String.mk g2, speed, eta⟩)
      else .error "ValueError"
    | none => .ok none

/-- `max(0, min(100, percentage))` (`src/loutube.py:27`), written with
comparisons so that it evaluates by kernel reduction. -/
def clampPct (p : ℚ) : ℚ :=
  let m : ℚ := if (100 : ℚ) ≤ p then 100 else p
  if m ≤ 0 then 0 else m

/-- Round-half-even of `10 * q` to an integer: the tenths count shown by
Python's `f"{q:6.1f}"`.  (CPython formats the binary double nearest to the
ideal value; the claims depend on the rendered line's length bookkeeping,
not on the digits.)  Written on `num`/`den` so that it evaluates by kernel
reduction; `q.den` is always positive. -/
def roundTenthsHalfEven (q : ℚ) : ℤ :=
  let n10 : ℤ := 10 * q.num
  let d : ℤ := (q.den : ℤ)
  let fl : ℤ := Int.fdiv n10 d
  let r : ℤ := n10 - d * fl
  if 2 * r < d then fl
  else if d < 2 * r then fl + 1
  else if fl % 2 = 0 then fl else fl + 1

/-- `f"{percentage:6.1f}"` for the already-clamped (hence nonnegative)
percentage: one decimal digit, right-aligned to width 6. -/
def fmtFixed1 (q : ℚ) : String :=
  let n := (roundTenthsHalfEven q).toNat
  let s := toString (n / 10) ++ "." ++ toString (n % 10)
  String.mk (List.replicate (6 - s.length) ' ') ++ s

/-- The keyword arguments of `draw_progress_counter`, with the source's
defaults. -/
structure DrawArgs where
  percentage : Rat
  speed : String := ""
  eta : String := ""
  downloaded : String := ""
  total : String := ""
deriving Repr, DecidableEq

/-- The `progress_line` string built by `draw_progress_counter`
(`src/loutube.py:27`–`41`): clamped percentage, then the optional
downloaded/total, speed and ETA fragments (Python's `if downloaded and ...`
treats the empty string as false). -/
def buildProgressLine (a : DrawArgs) : String :=
  let line := "Progress: " ++ fmtFixed1 (clampPct a.percentage) ++ "%"
  let line :=
    if a.downloaded != "" && a.total != "" && a.total != "N/A" then
      line ++ " (" ++ a.downloaded ++ "/" ++ a.total ++ ")"
    else if a.downloaded != "" then
      line ++ " (" ++ a.downloaded ++ ")"
    else line
  let line := if a.speed != "" && a.speed != "Unknown" then line ++ " at " ++ a.speed else line
  let line :=
    if a.eta != "" && a.eta != "Unknown" && a.eta != "N/A" then line ++ " ETA " ++ a.eta
    else line
  line

/-- `n` spaces. -/
def spaces (n : Nat) : String :=
  String.mk (List.replicate n ' ')

/-- `draw_progress_counter` (`src/loutube.py:24`–`50`): given the stored
`_prev_length`, write one line — a carriage return, the progress line, and
padding spaces erasing any leftover of a longer previous line — and store
the new line's length.  Nat subtraction is Python's
`max(0, previous_length - len(progress_line))`. -/
def draw_progress_counter (prevLength : Nat) (a : DrawArgs) : String × Nat :=
  let line := buildProgressLine a
  ("\r" ++ line ++ spaces (prevLength - line.length), line.length)

/-- Python's `str.strip()` over the modelled (ASCII) whitespace. -/
def pyStrip (s : String) : String :=
  String.mk (((s.data.dropWhile pyIsSpace).reverse.dropWhile pyIsSpace).reverse)

/-- Python's `str.lower()` (ASCII model). -/
def pyLower (s : String) : String :=
  String.mk (s.data.map Char.toLower)

/-- Python's substring test `pat in hay` (contiguous occurrence). -/
def hasSub : List Char → List Char → Bool
  | hay@(_ :: t), pat => pat.isPrefixOf hay || hasSub t pat
  | [], pat => pat.isEmpty

/-- The keywords of `src/loutube.py:134`. -/
def progressKeywords : List String :=
  ["error", "warning", "finished", "complete"]

/-- One terminal-output action of the scanning loop. -/
inductive OutEvent where
  | drawCounter (written : String)
  | writeNewline
  | printLine (s : String)
deriving Repr, DecidableEq

/-- The loop state of `run_with_progress_counter`: the `had_progress` flag
and the renderer's stored `_prev_length`. -/
structure LoopState where
  hadProgress : Bool
  prevLength : Nat
deriving Repr, DecidableEq

/-- One iteration of `run_with_progress_counter`'s read loop
(`src/loutube.py:106`–`140`) on one raw line: strip it; skip it when empty;
on a progress sample redraw the counter; otherwise print the line — with a
state-resetting newline first if a counter was being rendered — unless it
contains `'Downloaded'` or (lowercased) `'[download]'` and none of the
failure/warning/completion keywords, in which case nothing is printed.  An
uncaught `ValueError` from `parse_progress_line` propagates. -/
def processLine (st : LoopState) (rawLine : String) : Except String (LoopState × List OutEvent) :=
  let line := pyStrip rawLine
  if line = "" then .ok (st, [])
  else
    match parse_progress_line line with
    | .error e => .error e
    | .ok (some info) =>
      let r := draw_progress_counter st.prevLength
        { percentage := info.percentage, speed := info.speed, eta := info.eta,
          downloaded := info.downloaded, total := info.total }
      .ok (⟨true, r.2⟩, [.drawCounter r.1])
    | .ok none =>
      let lower := pyLower line
      let plainInfoLine :=
        hasSub line.data "Downloaded".data || hasSub lower.data "[download]".data
      let keywordLine :=
        progressKeywords.any (fun k => hasSub lower.data k.data)
      if !plainInfoLine || keywordLine then
        if st.hadProgress then
          .ok (⟨false, 0⟩, [.writeNewline, .printLine line])
        else
          .ok (st, [.printLine line])
      else .ok (st, [])

/-- The two process handles of a streaming session. -/
inductive ProcId where
  | yt
  | vlc
deriving Repr, DecidableEq

/-- One observable action of the streaming pipeline controller. -/
inductive PEvent where
  | spawnYt
  | sleepSeconds (n : Nat)
  | readYtStderr
  | msg (s : String)
  | spawnVlc
  | closeYtStdout
  | communicateVlc (timeoutSeconds : Nat)
  | terminate (p : ProcId)
  | waitTimeout (p : ProcId) (seconds : Nat)
  | kill (p : ProcId)
  | sysExit (code : Nat)
deriving Repr, DecidableEq

/-- How a live process reacts to a graceful `terminate()`; both cases occur
for real OS processes, so both are kept in the model. -/
structure ProcBehavior where
  /-- the process has already exited when the next `poll()` happens with no
  intervening `wait` (signal delivery is asynchronous, so this can be
  `false`) -/
  exitsOnTermBeforePoll : Bool
  /-- the process exits within a following `wait(timeout=5)` grace period -/
  exitsOnTermWithinGrace : Bool
deriving Repr, DecidableEq

/-- Result of `vlc_process.communicate(timeout=7200)`. -/
inductive VlcWaitOutcome where
  | exited (returncode : Int)
  | timeout
deriving Repr, DecidableEq

/-- The environment of one streaming session: everything the two external
processes decide on their own. -/
structure StreamEnv where
  /-- `yt_process.poll()` is not `None` at the check after the 1-second
  startup grace period (`src/loutube.py:815`) -/
  ytFailsEarly : Bool
  /-- contents of the producer's captured stderr stream -/
  ytStderr : String
  /-- the producer is still running when the `finally` block polls it -/
  ytStillRunningAtFinally : Bool
  ytBeh : ProcBehavior
  vlcBeh : ProcBehavior
  vlcWait : VlcWaitOutcome
deriving Repr, DecidableEq

/-- Per-process body of `signal_handler` (`src/loutube.py:737`–`743`):
`terminate()` only when `poll()` reports the process still running; no wait
follows, so whether the next poll sees it exited is up to the process.
Returns the emitted events and whether a later `poll()` still reports the
process running. -/
def signalHandlerCleanupProc (p : ProcId) (alive : Bool) (beh : ProcBehavior) :
    List PEvent × Bool :=
  if alive then ([.terminate p], !beh.exitsOnTermBeforePoll)
  else ([], false)

/-- Per-process cleanup of `watch_video`'s `finally` block
(`src/loutube.py:865`–`880`): when `poll()` reports the process still
running, print, `terminate()`, `wait(timeout=5)`, and `kill()` when that
wait times out.  After this the process is no longer running (SIGKILL), and
an already-exited process is left untouched. -/
def finallyCleanupProc (p : ProcId) (name : String) (alive : Bool) (beh : ProcBehavior) :
    List PEvent × Bool :=
  if alive then
    if beh.exitsOnTermWithinGrace then
      ([.msg ("Cleaning up " ++ name ++ " process..."), .terminate p, .waitTimeout p 5], false)
    else
      ([.msg ("Cleaning up " ++ name ++ " process..."), .terminate p, .waitTimeout p 5, .kill p],
       false)
  else ([], false)

/-- The `finally` block over both handles followed by `sys.exit(0)`
(`src/loutube.py:865`–`882`), appended to the trace so far.  The yt-dlp
handle is cleaned first, then the VLC handle. -/
def streamFinally (env : StreamEnv) (t : List PEvent) (ytAlive vlcAlive : Bool) :
    List PEvent × Bool × Bool :=
  let yt := finallyCleanupProc .yt "yt-dlp" ytAlive env.ytBeh
  let vlc := finallyCleanupProc .vlc "VLC" vlcAlive env.vlcBeh
  (t ++ yt.1 ++ vlc.1 ++ [.sysExit 0], yt.2, vlc.2)

/-- The streaming body of `watch_video` (`src/loutube.py:800`–`882`) on the
default non-live path after the VLC compatibility check: spawn yt-dlp with
captured stdout/stderr, sleep the 1-second grace period, poll; on early
exit read the captured stderr, report it and return; otherwise spawn VLC
with its stdin bound to the producer's stdout (stdout/stderr to `DEVNULL`),
close the controller's copy of the pipe, `communicate(timeout=7200)` and
interpret the exit code — `communicate` yields `None` for stderr because
VLC's stderr went to `DEVNULL`, so the `if vlc_stderr:` print never fires —
or, on timeout, terminate, wait 5 seconds and kill on a second timeout.
Every path then runs the `finally` cleanup and `sys.exit(0)`.  Returns the
trace and the final liveness of the yt-dlp and VLC handles. -/
def streamRun (env : StreamEnv) : List PEvent × Bool × Bool :=
  let t : List PEvent := [.spawnYt, .sleepSeconds 1]
  if env.ytFailsEarly then
    streamFinally env
      (t ++ [.readYtStderr, .msg ("yt-dlp failed to start: " ++ env.ytStderr)]) false false
  else
    let t := t ++ [.msg "yt-dlp started, launching VLC...", .spawnVlc, .closeYtStdout,
                   .msg "VLC launched! The video should start playing shortly.",
                   .communicateVlc 7200]
    match env.vlcWait with
    | .exited rc =>
      let vlcStderr : Option String := none
      let t := t ++
        (if rc = 0 then [.msg "Streaming completed successfully!"]
         else if rc = 1 then [.msg "Streaming ended (user closed VLC or stream ended)"]
         else [.msg ("VLC exited with code " ++ toString rc)] ++
           (match vlcStderr with
            | some e => [.msg ("VLC error output: " ++ e)]
            | none => []))
      streamFinally env t env.ytStillRunningAtFinally false
    | .timeout =>
      let t := t ++ [.msg "Stream timeout reached, stopping...",
                     .terminate .vlc, .waitTimeout .vlc 5]
      let t := if env.vlcBeh.exitsOnTermWithinGrace then t else t ++ [.kill .vlc]
      streamFinally env t env.ytStillRunningAtFinally false

/-- Does an event print VLC diagnostic output? -/
def isVlcErrOutputMsg : PEvent → Bool
  | .msg s => "VLC error output: ".data.isPrefixOf s.data
  | _ => false

/-- The characters allowed after the first letter of a URL scheme
(CPython `urllib.parse.scheme_chars`: ASCII letters, digits, `+`, `-`,
`.`). -/
def schemeChar (c : Char) : Bool :=
  c.isAlpha || c.isDigit || c = '+' || c = '-' || c = '.'

/-- CPython `urlsplit` scheme stripping: when the first `:` is preceded by
an ASCII letter followed by scheme characters only, drop everything through
that colon. -/
def removeScheme (url : List Char) : List Char :=
  match url.findIdx? (fun c => c = ':') with
  | some i =>
    if 0 < i && (url.headD ' ').isAlpha && ((url.take i).drop 1).all schemeChar then
      url.drop (i + 1)
    else url
  | none => url

/-- CPython `_splitnetloc`: the netloc runs from after `//` to the first
`/`, `?` or `#`. -/
def splitNetloc (rest : List Char) : List Char :=
  rest.takeWhile (fun c => c ≠ '/' && c ≠ '?' && c ≠ '#')

/-- The netloc produced by `urllib.parse.urlparse(url)`, or `none` when
`urlsplit` raises `ValueError` (an unmatched square bracket in the netloc;
`is_youtube_url` catches that and returns `False`).  A URL without `//`
after its scheme has an empty netloc. -/
def urlparseNetloc (url : String) : Option String :=
  let u := removeScheme url.data
  if u.take 2 = ['/', '/'] then
    let netloc := splitNetloc (u.drop 2)
    if (netloc.contains '[' && !netloc.contains ']') ||
       (netloc.contains ']' && !netloc.contains '[') then
      none
    else some (String.mk netloc)
  else some ""

/-- Drop everything through the first occurrence of `c`
(Python `s.split(c, 1)[1]` when `c` occurs). -/
def dropThroughFirst (c : Char) : List Char → List Char
  | [] => []
  | x :: xs => if x = c then xs else dropThroughFirst c xs

/-- `_normalize_host` (`src/loutube.py:160`): lower-case the netloc, drop
credentials (everything through the first `@`), drop the port (everything
from the first `:`). -/
def normalize_host (netloc : String) : String :=
  if netloc = "" then ""
  else
    let host := (pyLower netloc).data
    let host := if host.contains '@' then dropThroughFirst '@' host else host
    let host := if host.contains ':' then host.takeWhile (fun c => c ≠ ':') else host
    String.mk host

/-- `YOUTUBE_HOST_SUFFIXES` (`src/loutube.py:19`). -/
def YOUTUBE_HOST_SUFFIXES : List String :=
  ["youtube.com", "youtube-nocookie.com"]

/-- `is_youtube_url` (`src/loutube.py:172`): empty URLs and URLs whose
parsing raises give `False`; otherwise the normalized host must be
`youtu.be`/`www.youtu.be`, or equal to or a dot-separated subdomain of a
YouTube-owned suffix. -/
def is_youtube_url (url : String) : Bool :=
  if url = "" then false
  else
    match urlparseNetloc url with
    | none => false
    | some netloc =>
      let host := normalize_host netloc
      if host = "" then false
      else if host = "youtu.be" || host = "www.youtu.be" then true
      else
        YOUTUBE_HOST_SUFFIXES.any (fun sfx =>
          host = sfx || ('.' :: sfx.data).isSuffixOf host.data)

/-- `add_browser_cookies` (`src/loutube.py:292`): for a nonempty non-YouTube
URL, when the command does not already carry `--cookies-from-browser`, look
up a browser cookie source and append the flag and source when one is
found.  `cookieSource` stands for the result of `get_browser_cookies_fast()`
(an external-subprocess probe; `None` when no browser is found), and
Python's `if browser_cookies:` is false for both `None` and the empty
string. -/
def add_browser_cookies (cookieSource : Option String) (command : List String) (url : String) :
    List String :=
  if url != "" && !is_youtube_url url && !command.contains "--cookies-from-browser" then
    match cookieSource with
    | some c => if c != "" then command ++ ["--cookies-from-browser", c] else command
    | none => command
  else command

example : parse_progress_line "Downloaded 12.3MiB of 45.6MiB (27.5%) at 1.2MiB/s ETA 00:30" =
    .ok (some ⟨mkRat 55 2, "12.3MiB", "45.6MiB", "1.2MiB/s", "00:30"⟩) := by
  rfl

example : parse_progress_line "Downloaded 12.3MiB of N/A (27.5%)" =
    .ok (some ⟨mkRat 55 2, "12.3MiB", "N/A", "Unknown", "Unknown"⟩) := by
  rfl

example : parse_progress_line "Extracting audio..." = .ok none := by rfl

example : parse_progress_line "Downloaded a of b (..%) at c ETA d" = .error "ValueError" := by
  rfl

example : (draw_progress_counter 0 { percentage := mkRat 55 2 }).1 = "\r" ++ "Progress:   27.5%" := by rfl

example : (draw_progress_counter 30 { percentage := mkRat 55 2 }).1 =
    "\r" ++ "Progress:   27.5%" ++ spaces 13 := by rfl

example : processLine ⟨true, 17⟩ "Extracting audio..." =
    .ok (⟨false, 0⟩, [.writeNewline, .printLine "Extracting audio..."]) := by rfl

example : processLine ⟨true, 17⟩ "Downloaded stuff" = .ok (⟨true, 17⟩, []) := by rfl

example : processLine ⟨false, 0⟩ " [download] error while fetching " =
    .ok (⟨false, 0⟩, [.printLine "[download] error while fetching"]) := by rfl

example : is_youtube_url "https://www.youtube.com/watch?v=abc" = true := by rfl
example : is_youtube_url "https://youtu.be/abc" = true := by rfl
example : is_youtube_url "https://user:pw@music.YOUTUBE.com:443/x" = true := by rfl
example : is_youtube_url "https://www.youtube-nocookie.com/embed/x" = true := by rfl
example : is_youtube_url "https://notyoutube.com/watch" = false := by rfl
example : is_youtube_url "youtube.com/watch" = false := by rfl
example : is_youtube_url "" = false := by rfl
example : is_youtube_url "https://vimeo.com/123" = false := by rfl

example : add_browser_cookies (some "firefox") ["yt-dlp"] "https://www.youtube.com/watch?v=abc" =
    ["yt-dlp"] := by rfl
example : add_browser_cookies (some "firefox") ["yt-dlp"] "https://vimeo.com/123" =
    ["yt-dlp", "--cookies-from-browser", "firefox"] := by rfl
example : add_browser_cookies none ["yt-dlp"] "https://vimeo.com/123" = ["yt-dlp"] := by rfl

theorem clampPct_nonneg (p : ℚ) : 0 ≤ clampPct p := by
  dsimp only [clampPct]
  split_ifs with h1 h2 h3 <;> first | rfl | linarith

theorem clampPct_le_100 (p : ℚ) : clampPct p ≤ 100 := by
  dsimp only [clampPct]
  split_ifs with h1 h2 h3 <;> first | rfl | linarith

theorem clampPct_of_mem (p : ℚ) (h0 : 0 ≤ p) (h1 : p ≤ 100) : clampPct p = p := by
  dsimp only [clampPct]
  split_ifs with ha hb hc <;> linarith

theorem clampPct_idem (p : ℚ) : clampPct (clampPct p) = clampPct p :=
  clampPct_of_mem _ (clampPct_nonneg p) (clampPct_le_100 p)

theorem buildProgressLine_clamp (a : DrawArgs) :
    buildProgressLine a = buildProgressLine { a with percentage := clampPct a.percentage } := by
  unfold buildProgressLine
  rw [clampPct_idem]

/-- Claim C9: the spec requires malformed progress lines to be skipped rather
than abort the operation, but on the line `Downloaded a of b (..%) at c ETA d`
the primary pattern matches with percent group `..`, `float("..")` raises
`ValueError`, and nothing in `parse_progress_line` or
`run_with_progress_counter`'s read loop catches it, so the operation
aborts. -/
theorem C9_malformed_percent_group_raises :
    parse_progress_line "Downloaded a of b (..%) at c ETA d" = .error "ValueError" ∧
    processLine ⟨false, 0⟩ "Downloaded a of b (..%) at c ETA d" = .error "ValueError" := by
  exact ⟨by rfl, by rfl⟩

/-- Claim C3 counterexample: on a primary-pattern line reporting `150.0%`, the
sample returned by `parse_progress_line` has percentage `150`, not the
clamped value `100`; the parser performs no clamping. -/
theorem C3_counterexample :
    parse_progress_line "Downloaded 1.0MiB of 2.0MiB (150.0%) at 1.0MiB/s ETA 00:01" =
      .ok (some ⟨150, "1.0MiB", "2.0MiB", "1.0MiB/s", "00:01"⟩) ∧
    clampPct 150 = 100 ∧ (150 : ℚ) ≠ 100 := by
  refine ⟨by rfl, by rfl, by decide⟩

/-- Claim C3 (amended): for every line matching the primary pattern with an
acceptable percent group, the returned sample's percentage equals the
numeric value of the matched group, unclamped; the clamp to `[0, 100]` is
applied by `draw_progress_counter` when the sample is rendered (the
rendered line depends only on the clamped percentage, which lies in
`[0, 100]` and equals the raw value whenever that value is already in
range). -/
theorem C3_percentage_exact_clamped_at_render
    (line : String) (g1 g2 g3 g4 g5 : List Char)
    (h : searchFrom primaryAt line.data = some (g1, g2, g3, g4, g5))
    (hv : floatAcceptable g3 = true) :
    parse_progress_line line =
      .ok (some ⟨floatVal g3, String.mk g1, String.mk g2, String.mk g4, String.mk g5⟩) ∧
    (∀ a : DrawArgs,
      buildProgressLine a = buildProgressLine { a with percentage := clampPct a.percentage }) ∧
    (∀ p : ℚ, 0 ≤ clampPct p ∧ clampPct p ≤ 100 ∧ (0 ≤ p → p ≤ 100 → clampPct p = p)) := by
  refine ⟨?_, buildProgressLine_clamp, ?_⟩
  · simp [parse_progress_line, h, hv]
  · intro p
    exact ⟨clampPct_nonneg p, clampPct_le_100 p, fun h0 h1 => clampPct_of_mem p h0 h1⟩

theorem C3_percentage_exact_clamped_at_render_witness :
    parse_progress_line "Downloaded 12.3MiB of 45.6MiB (27.5%) at 1.2MiB/s ETA 00:30" =
      .ok (some ⟨floatVal "27.5".data, "12.3MiB", "45.6MiB", "1.2MiB/s", "00:30"⟩) :=
  (C3_percentage_exact_clamped_at_render
    "Downloaded 12.3MiB of 45.6MiB (27.5%) at 1.2MiB/s ETA 00:30"
    "12.3MiB".data "45.6MiB".data "27.5".data "1.2MiB/s".data "00:30".data
    (by rfl) (by rfl)).1

/-- Claim C2: `parse_progress_line` attempts the primary pattern first — when
it matches, the result is built from the primary groups alone — and only on
its failure attempts the secondary pattern, in which case the sample's
speed/eta are the matched `at <speed>` / `ETA <eta>` words and the sentinel
`"Unknown"` whenever the line carries no such token. -/
theorem C2_matching_policy (line : String) :
    (∀ g1 g2 g3 g4 g5, searchFrom primaryAt line.data = some (g1, g2, g3, g4, g5) →
      parse_progress_line line =
        (if floatAcceptable g3 then
          .ok (some ⟨floatVal g3, String.mk g1, String.mk g2, String.mk g4, String.mk g5⟩)
         else .error "ValueError")) ∧
    (searchFrom primaryAt line.data = none →
      ∀ g1 g2 g3, searchFrom secondaryAt line.data = some (g1, g2, g3) →
        floatAcceptable g3 = true →
        ∃ s : ProgressSample, parse_progress_line line = .ok (some s) ∧
          s.percentage = floatVal g3 ∧
          (searchFrom atTokenAt line.data = none → s.speed = "Unknown") ∧
          (∀ w, searchFrom atTokenAt line.data = some w → s.speed = String.mk w) ∧
          (searchFrom etaTokenAt line.data = none → s.eta = "Unknown") ∧
          (∀ w, searchFrom etaTokenAt line.data = some w → s.eta = String.mk w)) := by
  constructor
  · intro g1 g2 g3 g4 g5 h
    simp only [parse_progress_line, h]
  · intro h1 g1 g2 g3 h2 hv
    refine ⟨⟨floatVal g3, String.mk g1, String.mk g2,
      match searchFrom atTokenAt line.data with | some w => String.mk w | none => "Unknown",
      match searchFrom etaTokenAt line.data with | some w => String.mk w | none => "Unknown"⟩,
      ?_, rfl, ?_, ?_, ?_, ?_⟩
    · simp only [parse_progress_line, h1, h2, hv, if_true]
    · intro hat; simp only [hat]
    · intro w hw; simp only [hw]
    · intro heta; simp only [heta]
    · intro w hw; simp only [hw]

theorem C2_matching_policy_witness :
    (parse_progress_line "Downloaded 12.3MiB of 45.6MiB (27.5%) at 1.2MiB/s ETA 00:30" =
      (if floatAcceptable "27.5".data then
        .ok (some ⟨floatVal "27.5".data, "12.3MiB", "45.6MiB", "1.2MiB/s", "00:30"⟩)
       else .error "ValueError")) ∧
    (∃ s : ProgressSample,
      parse_progress_line "Downloaded 12.3MiB of N/A (27.5%)" = .ok (some s) ∧
      s.speed = "Unknown" ∧ s.eta = "Unknown") := by
  constructor
  · exact (C2_matching_policy _).1 _ _ _ _ _ (by rfl)
  · obtain ⟨s, hs, _, hsp, _, het, _⟩ :=
      (C2_matching_policy "Downloaded 12.3MiB of N/A (27.5%)").2 (by rfl) _ _ _ (by rfl) (by rfl)
    exact ⟨s, hs, hsp (by rfl), het (by rfl)⟩

/-- Claim C7 counterexample: `Downloaded stuff` is a non-empty stripped line
for which the parser returns no match, yet the loop prints it zero times —
it contains `Downloaded` and none of the keywords, so it is suppressed. -/
theorem C7_counterexample :
    pyStrip "Downloaded stuff" = "Downloaded stuff" ∧
    parse_progress_line "Downloaded stuff" = .ok none ∧
    processLine ⟨true, 20⟩ "Downloaded stuff" = .ok (⟨true, 20⟩, []) := by
  exact ⟨by rfl, by rfl, by rfl⟩

/-- Claim C7 (amended): a non-empty stripped line with no progress match is
printed verbatim exactly once — preceded by a state-resetting newline when
an in-place counter was being rendered — provided it either contains
neither `Downloaded` nor (lowercased) `[download]`, or carries one of the
failure/warning/completion keywords; otherwise it is suppressed and nothing
is printed. -/
theorem C7_unmatched_line_printing (st : LoopState) (rawLine : String)
    (hne : pyStrip rawLine ≠ "")
    (hnm : parse_progress_line (pyStrip rawLine) = .ok none) :
    ((!(hasSub (pyStrip rawLine).data "Downloaded".data ||
        hasSub (pyLower (pyStrip rawLine)).data "[download]".data) ||
       progressKeywords.any (fun k => hasSub (pyLower (pyStrip rawLine)).data k.data)) = true →
      processLine st rawLine =
        .ok (if st.hadProgress then ⟨false, 0⟩ else st,
             (if st.hadProgress then ([OutEvent.writeNewline] : List OutEvent) else []) ++
               [OutEvent.printLine (pyStrip rawLine)]) ∧
      ((if st.hadProgress then ([OutEvent.writeNewline] : List OutEvent) else []) ++
        [OutEvent.printLine (pyStrip rawLine)]).count
          (OutEvent.printLine (pyStrip rawLine)) = 1) ∧
    ((!(hasSub (pyStrip rawLine).data "Downloaded".data ||
        hasSub (pyLower (pyStrip rawLine)).data "[download]".data) ||
      progressKeywords.any (fun k => hasSub (pyLower (pyStrip rawLine)).data k.data)) = false →
      processLine st rawLine = .ok (st, [])) := by
  constructor
  · intro hp
    constructor
    · unfold processLine
      rw [if_neg hne, hnm]
      dsimp only
      rw [hp]
      cases h : st.hadProgress <;> simp [h]
    · cases h : st.hadProgress <;> simp [List.count_cons]
  · intro hp
    unfold processLine
    rw [if_neg hne, hnm]
    dsimp only
    rw [hp]
    rfl

theorem C7_unmatched_line_printing_witness :
    processLine ⟨true, 17⟩ "Extracting audio..." =
      .ok (⟨false, 0⟩, [.writeNewline, .printLine (pyStrip "Extracting audio...")]) ∧
    ([.writeNewline, .printLine (pyStrip "Extracting audio...")] : List OutEvent).count
      (OutEvent.printLine (pyStrip "Extracting audio...")) = 1 := by
  have h := (C7_unmatched_line_printing ⟨true, 17⟩ "Extracting audio..."
    (by decide) (by rfl)).1 (by rfl)
  exact ⟨h.1, h.2⟩

/-- Claim C8: each call to `draw_progress_counter` stores the rendered line's
length; the next call writes a carriage return, the new line, and exactly
`max 0 (previous length - new length)` trailing spaces, so the characters
written after the carriage return cover the longer of the two lines and a
shorter second line fully erases the first line's tail. -/
theorem C8_consecutive_draw_erases (p0 : Nat) (a1 a2 : DrawArgs) :
    (draw_progress_counter p0 a1).2 = (buildProgressLine a1).length ∧
    (draw_progress_counter (draw_progress_counter p0 a1).2 a2).1 =
      "\r" ++ buildProgressLine a2 ++
        spaces (max 0 ((buildProgressLine a1).length - (buildProgressLine a2).length)) ∧
    (draw_progress_counter (draw_progress_counter p0 a1).2 a2).2 =
      (buildProgressLine a2).length ∧
    ((draw_progress_counter (draw_progress_counter p0 a1).2 a2).1).length =
      1 + max (buildProgressLine a1).length (buildProgressLine a2).length := by
  refine ⟨rfl, by rw [Nat.zero_max]; rfl, rfl, ?_⟩
  show ("\r" ++ buildProgressLine a2 ++
    spaces ((buildProgressLine a1).length - (buildProgressLine a2).length)).length = _
  rw [String.length_append, String.length_append]
  rw [show ("\r" : String).length = 1 from rfl]
  rw [show ∀ n, (spaces n).length = n from fun n => by
    simp [spaces, String.length]]
  omega

theorem finallyCleanupProc_dead (p : ProcId) (name : String) (alive : Bool)
    (beh : ProcBehavior) : (finallyCleanupProc p name alive beh).2 = false := by
  unfold finallyCleanupProc
  split_ifs <;> rfl

/-- Claim C1: when the producer has already exited at the post-grace-period
poll, the consumer is never spawned and never waited on; the producer's
captured stderr is read and reported, and the session ends through the
cleanup with neither handle alive. -/
theorem C1_producer_early_exit_aborts (env : StreamEnv) (h : env.ytFailsEarly = true) :
    PEvent.spawnVlc ∉ (streamRun env).1 ∧
    PEvent.communicateVlc 7200 ∉ (streamRun env).1 ∧
    PEvent.readYtStderr ∈ (streamRun env).1 ∧
    PEvent.msg ("yt-dlp failed to start: " ++ env.ytStderr) ∈ (streamRun env).1 ∧
    PEvent.sysExit 0 ∈ (streamRun env).1 ∧
    (streamRun env).2.1 = false ∧ (streamRun env).2.2 = false := by
  unfold streamRun
  rw [h]
  simp [streamFinally, finallyCleanupProc]

theorem C1_producer_early_exit_aborts_witness :
    PEvent.spawnVlc ∉ (streamRun ⟨true, "boom", false, ⟨true, true⟩, ⟨true, true⟩,
      .exited 0⟩).1 ∧
    PEvent.msg ("yt-dlp failed to start: " ++ "boom") ∈
      (streamRun ⟨true, "boom", false, ⟨true, true⟩, ⟨true, true⟩, .exited 0⟩).1 := by
  have h := C1_producer_early_exit_aborts
    ⟨true, "boom", false, ⟨true, true⟩, ⟨true, true⟩, .exited 0⟩ (by rfl)
  exact ⟨h.1, h.2.2.2.1⟩

/-- Claim C4: when the consumer outlives the 7200-second wait, the controller
terminates it, waits the 5-second grace period, and — when the process does
not exit within that grace — kills it, in that order; afterwards neither
handle of the session is alive (the producer, if still running, is cleaned
up by the same graceful-then-forceful path in the `finally` block). -/
theorem C4_consumer_timeout_escalation (env : StreamEnv)
    (h1 : env.ytFailsEarly = false) (h2 : env.vlcWait = .timeout) :
    PEvent.msg "Stream timeout reached, stopping..." ∈ (streamRun env).1 ∧
    PEvent.terminate .vlc ∈ (streamRun env).1 ∧
    PEvent.waitTimeout .vlc 5 ∈ (streamRun env).1 ∧
    (env.vlcBeh.exitsOnTermWithinGrace = false →
      ∃ pre post, (streamRun env).1 =
        pre ++ [PEvent.terminate .vlc, PEvent.waitTimeout .vlc 5, PEvent.kill .vlc] ++ post) ∧
    (env.vlcBeh.exitsOnTermWithinGrace = true → PEvent.kill .vlc ∉ (streamRun env).1) ∧
    (streamRun env).2.1 = false ∧ (streamRun env).2.2 = false := by
  unfold streamRun
  rw [h1, h2]
  cases hg : env.vlcBeh.exitsOnTermWithinGrace
  · refine ⟨?_, ?_, ?_, ?_, ?_, ?_, ?_⟩
    · simp [streamFinally]
    · simp [streamFinally]
    · simp [streamFinally]
    · intro _
      refine ⟨[PEvent.spawnYt, PEvent.sleepSeconds 1,
        PEvent.msg "yt-dlp started, launching VLC...", PEvent.spawnVlc, PEvent.closeYtStdout,
        PEvent.msg "VLC launched! The video should start playing shortly.",
        PEvent.communicateVlc 7200, PEvent.msg "Stream timeout reached, stopping..."],
        (finallyCleanupProc .yt "yt-dlp" env.ytStillRunningAtFinally env.ytBeh).1 ++
          [PEvent.sysExit 0], ?_⟩
      simp [streamFinally, finallyCleanupProc]
    · intro hgr
      exact absurd hgr (by decide)
    · simp [streamFinally, finallyCleanupProc_dead]
    · simp [streamFinally, finallyCleanupProc]
  · refine ⟨?_, ?_, ?_, ?_, ?_, ?_, ?_⟩
    · simp [streamFinally]
    · simp [streamFinally]
    · simp [streamFinally]
    · intro hgr
      exact absurd hgr (by decide)
    · intro _
      simp only [streamFinally, if_true]
      intro hmem
      rcases List.mem_append.1 hmem with hmem | hmem
      · rcases List.mem_append.1 hmem with hmem | hmem
        · rcases List.mem_append.1 hmem with hmem | hmem
          · simp at hmem
          · unfold finallyCleanupProc at hmem
            split_ifs at hmem <;> simp at hmem
        · unfold finallyCleanupProc at hmem
          split_ifs at hmem <;> simp at hmem
      · simp at hmem
    · simp [streamFinally, finallyCleanupProc_dead]
    · simp [streamFinally, finallyCleanupProc]

theorem C4_consumer_timeout_escalation_witness :
    PEvent.kill .vlc ∈ (streamRun ⟨false, "", true, ⟨false, false⟩, ⟨false, false⟩,
      .timeout⟩).1 := by
  obtain ⟨-, -, -, h, -, -, -⟩ := C4_consumer_timeout_escalation
    ⟨false, "", true, ⟨false, false⟩, ⟨false, false⟩, .timeout⟩ (by rfl) (by rfl)
  obtain ⟨pre, post, heq⟩ := h (by rfl)
  rw [heq]
  simp

/-- Claim C5 counterexample: the signal handler terminates a live process
without waiting, so when the process has not yet exited by the time the
`finally` block polls it, the `finally` cleanup terminates it a second
time — the still-live handle receives `terminate` twice, not exactly
once. -/
theorem C5_counterexample :
    ((signalHandlerCleanupProc .vlc true ⟨false, true⟩).1 ++
      (finallyCleanupProc .vlc "VLC" (signalHandlerCleanupProc .vlc true ⟨false, true⟩).2
        ⟨false, true⟩).1).count (PEvent.terminate .vlc) = 2 := by
  rfl

/-- Claim C5 (amended): every cleanup invocation guards each `terminate` with
a liveness poll, so a process observed as exited is never terminated and a
second `finally`-style cleanup is a no-op; the `finally` cleanup terminates
a still-live process exactly once, and the handler-then-`finally` sequence
does so exactly once provided the process has exited by the second poll —
when it has not, the `terminate` is repeated (see the counterexample). -/
theorem C5_cleanup_guarded_idempotent (p : ProcId) (name : String) (alive : Bool)
    (beh : ProcBehavior) :
    signalHandlerCleanupProc p false beh = ([], false) ∧
    finallyCleanupProc p name false beh = ([], false) ∧
    (finallyCleanupProc p name alive beh).2 = false ∧
    finallyCleanupProc p name (finallyCleanupProc p name alive beh).2 beh = ([], false) ∧
    ((finallyCleanupProc p name alive beh).1.count (PEvent.terminate p) =
      if alive then 1 else 0) ∧
    (beh.exitsOnTermBeforePoll = true →
      ((signalHandlerCleanupProc p alive beh).1 ++
        (finallyCleanupProc p name (signalHandlerCleanupProc p alive beh).2 beh).1).count
          (PEvent.terminate p) = if alive then 1 else 0) := by
  refine ⟨rfl, ?_, finallyCleanupProc_dead p name alive _, ?_, ?_, ?_⟩
  · simp [finallyCleanupProc]
  · rw [finallyCleanupProc_dead]
    simp [finallyCleanupProc]
  · cases alive <;> cases hbg : beh.exitsOnTermWithinGrace <;>
      simp [finallyCleanupProc, hbg, List.count_cons, List.count_nil]
  · intro hbp
    cases alive <;> cases hbg : beh.exitsOnTermWithinGrace <;>
      simp [signalHandlerCleanupProc, finallyCleanupProc, hbp, hbg,
        List.count_cons, List.count_nil]

theorem C5_cleanup_guarded_idempotent_witness :
    ((signalHandlerCleanupProc .yt true ⟨true, true⟩).1 ++
      (finallyCleanupProc .yt "yt-dlp" (signalHandlerCleanupProc .yt true ⟨true, true⟩).2
        ⟨true, true⟩).1).count (PEvent.terminate .yt) = 1 := by
  have h := (C5_cleanup_guarded_idempotent .yt "yt-dlp" true ⟨true, true⟩).2.2.2.2.2 (by rfl)
  exact h

theorem isVlcErrOutputMsg_yt_fail (s : String) :
    isVlcErrOutputMsg (.msg ("yt-dlp failed to start: " ++ s)) = false := by
  rfl

theorem isVlcErrOutputMsg_code (rc : Int) :
    isVlcErrOutputMsg (.msg ("VLC exited with code " ++ toString rc)) = false := by
  rfl

theorem filter_finallyCleanupProc (p : ProcId) (name : String) (alive : Bool)
    (beh : ProcBehavior) :
    (finallyCleanupProc p name alive beh).1.filter isVlcErrOutputMsg = [] := by
  unfold finallyCleanupProc
  split_ifs <;> rfl

/-- No reachable trace of the streaming body ever prints VLC diagnostic
output: VLC's stderr is redirected to `DEVNULL` at spawn, `communicate`
returns `None` for it, and the `if vlc_stderr:` branch is dead code. -/
theorem streamRun_no_vlc_err_output (env : StreamEnv) :
    (streamRun env).1.filter isVlcErrOutputMsg = [] := by
  obtain ⟨fe, ys, yr, yb, vb, vw⟩ := env
  have hyt : (finallyCleanupProc .yt "yt-dlp" yr yb).1.filter isVlcErrOutputMsg = [] :=
    filter_finallyCleanupProc _ _ _ _
  have hvlc : ∀ b, (finallyCleanupProc .vlc "VLC" b vb).1.filter isVlcErrOutputMsg = [] :=
    fun b => filter_finallyCleanupProc _ _ _ _
  cases fe
  · rcases vw with rc | _
    · unfold streamRun streamFinally
      dsimp only
      by_cases h0 : rc = 0
      · simp [h0, List.filter_append, List.filter, hyt, hvlc, isVlcErrOutputMsg] <;> rfl
      · by_cases h1 : rc = 1
        · simp [h0, h1, List.filter_append, List.filter, hyt, hvlc, isVlcErrOutputMsg] <;> rfl
        · simp [h0, h1, List.filter_append, List.filter, hyt, hvlc, isVlcErrOutputMsg,
            isVlcErrOutputMsg_code] <;> rfl
    · unfold streamRun streamFinally
      dsimp only
      cases hg : vb.exitsOnTermWithinGrace <;>
        simp [hg, List.filter_append, List.filter, hyt, hvlc, isVlcErrOutputMsg] <;> rfl
  · unfold streamRun streamFinally
    dsimp only
    simp [List.filter_append, List.filter, hyt, hvlc, isVlcErrOutputMsg,
      isVlcErrOutputMsg_yt_fail] <;> rfl

/-- Claim C6 counterexample: with the player exiting with code `2`, the
controller reports the exit code but prints no diagnostic output — VLC was
spawned with `stderr=DEVNULL`, so `communicate` captured nothing and the
`if vlc_stderr:` print is dead code. -/
theorem C6_counterexample :
    PEvent.msg "VLC exited with code 2" ∈
      (streamRun ⟨false, "", false, ⟨true, true⟩, ⟨true, true⟩, .exited 2⟩).1 ∧
    (streamRun ⟨false, "", false, ⟨true, true⟩, ⟨true, true⟩,
      .exited 2⟩).1.filter isVlcErrOutputMsg = [] := by
  constructor
  · show PEvent.msg "VLC exited with code 2" ∈
      (streamRun ⟨false, "", false, ⟨true, true⟩, ⟨true, true⟩, .exited 2⟩).1
    decide
  · rfl

/-- Claim C6 (amended): at session end the player's exit code is interpreted
as: `0` reports successful completion, `1` (user closed the player) reports
a normal non-error end, and any other code reports an error naming the exit
code; no diagnostic (standard-error) output of the player accompanies that
report — none is captured, the player's stderr having been redirected to
the null device at spawn, and the print guarded by `if vlc_stderr:` is
dead code. -/
theorem C6_exit_code_interpretation (env : StreamEnv) (rc : Int)
    (h1 : env.ytFailsEarly = false) (h2 : env.vlcWait = .exited rc) :
    (rc = 0 → PEvent.msg "Streaming completed successfully!" ∈ (streamRun env).1) ∧
    (rc = 1 → PEvent.msg "Streaming ended (user closed VLC or stream ended)" ∈
      (streamRun env).1) ∧
    (rc ≠ 0 → rc ≠ 1 →
      PEvent.msg ("VLC exited with code " ++ toString rc) ∈ (streamRun env).1) ∧
    (streamRun env).1.filter isVlcErrOutputMsg = [] := by
  refine ⟨?_, ?_, ?_, streamRun_no_vlc_err_output env⟩
  · intro h0
    unfold streamRun
    rw [h1, h2]
    simp [streamFinally, h0]
  · intro hone
    unfold streamRun
    rw [h1, h2]
    simp [streamFinally, hone]
  · intro h0 hone
    unfold streamRun
    rw [h1, h2]
    simp [streamFinally, h0, hone]

theorem C6_exit_code_interpretation_witness :
    PEvent.msg "Streaming completed successfully!" ∈
      (streamRun ⟨false, "", false, ⟨true, true⟩, ⟨true, true⟩, .exited 0⟩).1 :=
  (C6_exit_code_interpretation ⟨false, "", false, ⟨true, true⟩, ⟨true, true⟩, .exited 0⟩ 0
    (by rfl) (by rfl)).1 (by rfl)

/-- Claim C10: `add_browser_cookies` leaves the command unchanged for every
YouTube URL — one whose normalized host (lowercased, stripped of
credentials and port) is `youtu.be`/`www.youtu.be`, or equals or is a
dot-separated subdomain of `youtube.com` or `youtube-nocookie.com` — and
for every command already carrying `--cookies-from-browser`; arguments are
appended only for nonempty non-YouTube URLs when a nonempty cookie source
is found, and then exactly the two-element suffix is added. -/
theorem C10_cookies_only_for_non_youtube (cookieSource : Option String)
    (command : List String) (url : String) :
    (is_youtube_url url = true → add_browser_cookies cookieSource command url = command) ∧
    (command.contains "--cookies-from-browser" = true →
      add_browser_cookies cookieSource command url = command) ∧
    (add_browser_cookies cookieSource command url ≠ command →
      url ≠ "" ∧ is_youtube_url url = false ∧
      ∃ c, cookieSource = some c ∧ c ≠ "" ∧
        add_browser_cookies cookieSource command url =
          command ++ ["--cookies-from-browser", c]) ∧
    (∀ netloc, urlparseNetloc url = some netloc →
      (is_youtube_url url = true ↔
        url ≠ "" ∧
        (normalize_host netloc = "youtu.be" ∨ normalize_host netloc = "www.youtu.be" ∨
         ∃ sfx ∈ YOUTUBE_HOST_SUFFIXES, normalize_host netloc = sfx ∨
           ('.' :: sfx.data).isSuffixOf (normalize_host netloc).data = true))) := by
  refine ⟨?_, ?_, ?_, ?_⟩
  · intro h
    unfold add_browser_cookies
    rw [h]
    simp
  · intro h
    unfold add_browser_cookies
    rw [h]
    simp
  · intro hne
    unfold add_browser_cookies at hne ⊢
    by_cases hc : (url != "" && !is_youtube_url url &&
        !command.contains "--cookies-from-browser") = true
    · rw [if_pos hc] at hne ⊢
      simp only [Bool.and_eq_true, bne_iff_ne, ne_eq, Bool.not_eq_true] at hc
      obtain ⟨⟨hu, hy⟩, -⟩ := hc
      refine ⟨hu, by simpa using hy, ?_⟩
      rcases cookieSource with _ | c
      · exact absurd rfl hne
      · dsimp only at hne ⊢
        by_cases hce : (c != "") = true
        · rw [if_pos hce] at hne ⊢
          exact ⟨c, rfl, by simpa using hce, rfl⟩
        · rw [if_neg hce] at hne
          exact absurd rfl hne
    · rw [if_neg hc] at hne
      exact absurd rfl hne
  · intro netloc hnet
    by_cases hurl : url = ""
    · subst hurl
      constructor
      · intro h
        exact absurd h (by decide)
      · rintro ⟨h, -⟩
        exact absurd rfl h
    · unfold is_youtube_url
      rw [if_neg hurl, hnet]
      dsimp only
      by_cases hh : normalize_host netloc = ""
      · rw [if_pos hh]
        constructor
        · intro h
          exact absurd h (by decide)
        · rintro ⟨-, h | h | ⟨sfx, hsfx, h | h⟩⟩
          · rw [hh] at h
            exact absurd h (by decide)
          · rw [hh] at h
            exact absurd h (by decide)
          · rw [hh] at h
            fin_cases hsfx <;> exact absurd h (by decide)
          · rw [hh] at h
            fin_cases hsfx <;> exact absurd h (by decide)
      · rw [if_neg hh]
        by_cases hbe : (normalize_host netloc = "youtu.be" ||
            normalize_host netloc = "www.youtu.be") = true
        · rw [if_pos hbe]
          simp only [Bool.or_eq_true, decide_eq_true_eq] at hbe
          constructor
          · intro _
            rcases hbe with h | h
            · exact ⟨hurl, Or.inl h⟩
            · exact ⟨hurl, Or.inr (Or.inl h)⟩
          · intro _
            rfl
        · rw [if_neg hbe]
          constructor
          · intro h
            refine ⟨hurl, Or.inr (Or.inr ?_)⟩
            rcases List.any_eq_true.1 h with ⟨sfx, hsfx, hcase⟩
            simp only [Bool.or_eq_true, decide_eq_true_eq] at hcase
            exact ⟨sfx, hsfx, hcase⟩
          · rintro ⟨-, h | h | ⟨sfx, hsfx, h⟩⟩
            · exact absurd (by simp [h]) hbe
            · exact absurd (by simp [h]) hbe
            · refine List.any_eq_true.2 ⟨sfx, hsfx, ?_⟩
              rcases h with h | h
              · simp [h]
              · simp [h]

theorem C10_cookies_only_for_non_youtube_witness :
    add_browser_cookies (some "firefox") ["yt-dlp"] "https://www.youtube.com/watch?v=a" =
      ["yt-dlp"] :=
  (C10_cookies_only_for_non_youtube (some "firefox") ["yt-dlp"]
    "https://www.youtube.com/watch?v=a").1 (by rfl)
